import Mathlib

/-!
Verification development for the Sylvie v3 repository.

The first half embeds the UI-layer code that actually exists in the
repository: the Zustand store (src/sylvie-v3/src/store/sylvieStore.ts),
the useConversations hook and ChatInterface handler
(src/sylvie-v3/src/features/ChatInterface.tsx), and the mock chat send
handler of the SylvieV3Interface component.

The second half models the capability-scoped session broker that the
specification reconstructs from the repository documentation (the broker
is described only in markdown; no broker code exists in the repository),
and proves the spec properties against that model.
-/

namespace SylvieStore

/-- Message record of the Zustand store (SylvieMessage in types): the
action payload carries a type tag and content; id and timestamp are
generated at dispatch time (uuidv4 and new Date), modelled as explicit
parameters. -/
structure SylvieMessage where
  id : String
  type : String
  content : String
  timestamp : Nat
deriving DecidableEq, Repr

/-- Conversation record (ConversationBranch in types). -/
structure ConversationBranch where
  id : String
  parentId : Option String := none
  title : String
  messages : List SylvieMessage
  createdAt : Nat
  updatedAt : Nat
deriving DecidableEq, Repr

/-- Workspace part of the configuration object. -/
structure WorkspaceConfig where
  scopes : List String
  cacheEnabled : Bool
  cacheTtl : Nat
deriving DecidableEq, Repr

/-- Configuration object (SylvieConfig in types). -/
structure SylvieConfig where
  theme : String
  language : String
  workspace : WorkspaceConfig
  aiProvider : String
  aiModel : String
  maxTokens : Nat
deriving DecidableEq, Repr

/-- MCP server entry held in the store. -/
structure MCPServer where
  name : String
  status : String
deriving DecidableEq, Repr

/-- The defaultConfig constant of sylvieStore.ts. -/
def defaultConfig : SylvieConfig :=
  { theme := "light"
    language := "fr"
    workspace :=
      { scopes :=
          [ "https://www.googleapis.com/auth/gmail.modify"
          , "https://www.googleapis.com/auth/calendar"
          , "https://www.googleapis.com/auth/drive"
          , "https://www.googleapis.com/auth/documents"
          , "https://www.googleapis.com/auth/spreadsheets"
          , "https://www.googleapis.com/auth/presentations"
          , "https://www.googleapis.com/auth/tasks" ]
        cacheEnabled := true
        cacheTtl := 1800 }
    aiProvider := "openai"
    aiModel := "gpt-4"
    maxTokens := 2048 }

/-- The state slice of the Zustand store (SylvieState in types).  The
user object is modelled by an opaque identifier. -/
structure State where
  user : Option String
  isAuthenticated : Bool
  conversations : List ConversationBranch
  activeConversationId : Option String
  messages : List SylvieMessage
  isThinking : Bool
  config : SylvieConfig
  sidebarOpen : Bool
  branchModalOpen : Bool
  settingsModalOpen : Bool
  mcpServers : List MCPServer

/-- Initial store state, exactly the object literal at the top of the
store creator. -/
def initialState : State :=
  { user := none
    isAuthenticated := false
    conversations := []
    activeConversationId := none
    messages := []
    isThinking := false
    config := defaultConfig
    sidebarOpen := true
    branchModalOpen := false
    settingsModalOpen := false
    mcpServers := [] }

/-- setUser action: stores the user and sets isAuthenticated to the
truthiness of the user object. -/
def setUser (u : Option String) (st : State) : State :=
  { st with user := u, isAuthenticated := u.isSome }

/-- logout action: clears user, isAuthenticated, conversations,
activeConversationId and messages. -/
def logout (st : State) : State :=
  { st with user := none, isAuthenticated := false, conversations := [],
            activeConversationId := none, messages := [] }

/-- createConversation action; the uuid and the current time are passed
explicitly. -/
def createConversation (newId : String) (now : Nat) (title : String) (st : State) : State :=
  let newConversation : ConversationBranch :=
    { id := newId, title := title, messages := [], createdAt := now, updatedAt := now }
  { st with conversations := st.conversations ++ [newConversation],
            activeConversationId := some newId,
            messages := [] }

/-- deleteConversation action. -/
def deleteConversation (cid : String) (st : State) : State :=
  { st with conversations := st.conversations.filter (fun c => c.id ≠ cid),
            activeConversationId :=
              if st.activeConversationId = some cid then none else st.activeConversationId,
            messages := if st.activeConversationId = some cid then [] else st.messages }

/-- setActiveConversation action: switches only when the conversation
exists. -/
def setActiveConversation (cid : String) (st : State) : State :=
  match st.conversations.find? (fun c => c.id = cid) with
  | some conversation =>
      { st with activeConversationId := some cid, messages := conversation.messages }
  | none => st

/-- addMessage action: appends the new message to the flat message list
and rewrites the active conversation (messages replaced by the new flat
list, updatedAt refreshed); every other conversation is mapped to
itself. -/
def addMessage (mtype mcontent : String) (newId : String) (now : Nat) (st : State) : State :=
  let message : SylvieMessage :=
    { id := newId, type := mtype, content := mcontent, timestamp := now }
  let newMessages := st.messages ++ [message]
  let updatedConversations := st.conversations.map (fun conv =>
    if st.activeConversationId = some conv.id then
      { conv with messages := newMessages, updatedAt := now }
    else conv)
  { st with messages := newMessages, conversations := updatedConversations }

/-- updateMessage action: the object spread of the partial update is
modelled by an update function applied to the matching message. -/
def updateMessage (mid : String) (updates : SylvieMessage → SylvieMessage) (now : Nat)
    (st : State) : State :=
  let newMessages := st.messages.map (fun msg => if msg.id = mid then updates msg else msg)
  let updatedConversations := st.conversations.map (fun conv =>
    if st.activeConversationId = some conv.id then
      { conv with messages := newMessages, updatedAt := now }
    else conv)
  { st with messages := newMessages, conversations := updatedConversations }

/-- setThinking action. -/
def setThinking (b : Bool) (st : State) : State :=
  { st with isThinking := b }

/-- createBranch action: copies the prefix of the flat message list up
to the given message, appends the new user message, and installs the
branch as the active conversation. -/
def createBranch (messageId newMessage : String) (branchId msgId : String) (now : Nat)
    (title : String) (st : State) : State :=
  match st.messages.findIdx? (fun m => m.id = messageId) with
  | some messageIndex =>
      let branchMessages := st.messages.take (messageIndex + 1) ++
        [{ id := msgId, type := "user", content := newMessage, timestamp := now }]
      let newBranch : ConversationBranch :=
        { id := branchId, parentId := st.activeConversationId, title := title,
          messages := branchMessages, createdAt := now, updatedAt := now }
      { st with conversations := st.conversations ++ [newBranch],
                activeConversationId := some branchId,
                messages := branchMessages }
  | none => st

/-- toggleSidebar action. -/
def toggleSidebar (st : State) : State :=
  { st with sidebarOpen := !st.sidebarOpen }

/-- openBranchModal action. -/
def openBranchModal (st : State) : State :=
  { st with branchModalOpen := true }

/-- closeBranchModal action. -/
def closeBranchModal (st : State) : State :=
  { st with branchModalOpen := false }

/-- openSettingsModal action. -/
def openSettingsModal (st : State) : State :=
  { st with settingsModalOpen := true }

/-- closeSettingsModal action. -/
def closeSettingsModal (st : State) : State :=
  { st with settingsModalOpen := false }

/-- updateConfig action: the object spread of the partial configuration
is modelled by an update function on the configuration. -/
def updateConfig (f : SylvieConfig → SylvieConfig) (st : State) : State :=
  { st with config := f st.config }

/-- connectMCPServer action: the fetch outcome decides whether the new
server entry is stored as connected or as an error; in both cases the
entry is appended to mcpServers and nothing else changes. -/
def connectMCPServer (name : String) (ok : Bool) (st : State) : State :=
  { st with mcpServers := st.mcpServers ++
      [{ name := name, status := if ok then "connected" else "error" }] }

/-- disconnectMCPServer action. -/
def disconnectMCPServer (name : String) (st : State) : State :=
  { st with mcpServers := st.mcpServers.filter (fun server => server.name ≠ name) }

/-- executeAction action: only logs; the store state is untouched. -/
def executeAction (st : State) : State := st

/-- Closed syntax for the store actions, carrying the generated ids and
timestamps as data. -/
inductive Action where
  | setUser (u : Option String)
  | logout
  | createConversation (newId : String) (now : Nat) (title : String)
  | deleteConversation (cid : String)
  | setActiveConversation (cid : String)
  | addMessage (mtype mcontent newId : String) (now : Nat)
  | updateMessage (mid : String) (updates : SylvieMessage → SylvieMessage) (now : Nat)
  | setThinking (b : Bool)
  | createBranch (messageId newMessage branchId msgId : String) (now : Nat) (title : String)
  | toggleSidebar
  | openBranchModal
  | closeBranchModal
  | openSettingsModal
  | closeSettingsModal
  | updateConfig (f : SylvieConfig → SylvieConfig)
  | connectMCPServer (name : String) (ok : Bool)
  | disconnectMCPServer (name : String)
  | executeAction

/-- Interpretation of an action as a state transformer, one case per
store action. -/
def applyAction : Action → State → State
  | .setUser u => setUser u
  | .logout => logout
  | .createConversation newId now title => createConversation newId now title
  | .deleteConversation cid => deleteConversation cid
  | .setActiveConversation cid => setActiveConversation cid
  | .addMessage mtype mcontent newId now => addMessage mtype mcontent newId now
  | .updateMessage mid updates now => updateMessage mid updates now
  | .setThinking b => setThinking b
  | .createBranch messageId newMessage branchId msgId now title =>
      createBranch messageId newMessage branchId msgId now title
  | .toggleSidebar => toggleSidebar
  | .openBranchModal => openBranchModal
  | .closeBranchModal => closeBranchModal
  | .openSettingsModal => openSettingsModal
  | .closeSettingsModal => closeSettingsModal
  | .updateConfig f => updateConfig f
  | .connectMCPServer name ok => connectMCPServer name ok
  | .disconnectMCPServer name => disconnectMCPServer name
  | .executeAction => executeAction

/-- Marks the two actions that write the user and isAuthenticated
fields. -/
def touchesAuth : Action → Bool
  | .setUser _ => true
  | .logout => true
  | _ => false

end SylvieStore

namespace UseConversations

/-- Message record of the useConversations hook. -/
structure Message where
  id : Nat
  sender : String
  content : String
  timestamp : String
deriving DecidableEq, Repr

/-- Conversation record of the useConversations hook. -/
structure Conversation where
  id : Nat
  title : String
  messages : List Message
deriving DecidableEq, Repr

/-- Initial mock messages of the hook. -/
def initialMessages : List Message :=
  [ { id := 1, sender := "Sylvie", content := "Bonjour, comment puis-je vous aider ?",
      timestamp := "10:00" }
  , { id := 2, sender := "Utilisateur", content := "Montre-moi mes emails.",
      timestamp := "10:01" } ]

/-- Initial conversation list of the hook. -/
def initialConversations : List Conversation :=
  [ { id := 1, title := "Général", messages := initialMessages } ]

/-- addMessage of the hook: maps over the conversations, appending the
message to the one whose id equals the current conversation id. -/
def addMessage (convs : List Conversation) (currentConvId : Nat) (msg : Message) :
    List Conversation :=
  convs.map (fun c =>
    if c.id = currentConvId then { c with messages := c.messages ++ [msg] } else c)

/-- resetConversation of the hook: empties the current conversation. -/
def resetConversation (convs : List Conversation) (currentConvId : Nat) :
    List Conversation :=
  convs.map (fun c => if c.id = currentConvId then { c with messages := [] } else c)

end UseConversations

/-- Embedding of the JavaScript String.prototype.trim used by the
handlers: leading and trailing whitespace characters are removed.  It
is defined by structural recursion over the character list so that it
evaluates inside the kernel. -/
def jsTrim (s : String) : String :=
  ⟨((s.data.dropWhile Char.isWhitespace).reverse.dropWhile Char.isWhitespace).reverse⟩

namespace ChatInterface

/-- Toast record set by the handlers. -/
structure Toast where
  message : String
  ttype : String
deriving DecidableEq, Repr

/-- Maximal raw message length accepted by validateMessage. -/
def MESSAGE_MAX_LENGTH : Nat := 1000

/-- Minimal trimmed message length accepted by validateMessage. -/
def MESSAGE_MIN_LENGTH : Nat := 1

/-- validateMessage of ChatInterface: the trimmed length must reach the
minimum and the raw length must not exceed the maximum. -/
def validateMessage (msg : String) : Bool :=
  decide (MESSAGE_MIN_LENGTH ≤ (jsTrim msg).length) && decide (msg.length ≤ MESSAGE_MAX_LENGTH)

/-- Result of one handleSend invocation: the conversation list, the
toast shown (if any) and the content of the input field afterwards. -/
structure SendResult where
  conversations : List UseConversations.Conversation
  toast : Option Toast
  inputField : String
deriving DecidableEq, Repr

/-- handleSend of ChatInterface: on failed validation it shows the
error toast and leaves everything else alone; otherwise it appends the
user message to the current conversation through the hook and clears
the input field.  The generated id (Date.now) and the formatted
timestamp are passed explicitly. -/
def handleSend (message : String) (convs : List UseConversations.Conversation)
    (currentConvId : Nat) (nowId : Nat) (ts : String) : SendResult :=
  if !validateMessage message then
    { conversations := convs
      toast := some { message := "Message invalide", ttype := "error" }
      inputField := message }
  else
    { conversations := UseConversations.addMessage convs currentConvId
        { id := nowId, sender := "Utilisateur", content := message, timestamp := ts }
      toast := none
      inputField := "" }

end ChatInterface

namespace SylvieV3Interface

/-- Effects issued by the SylvieV3Interface event handlers.  Store
dispatches, local component-state writes, timer scheduling (with the
callback as a nested effect list) and network requests are each a
constructor, so a handler is embedded as the list of effects it
performs in order. -/
inductive ChatEff where
  | createConversation
  | addMessage (mtype : String) (content : String)
  | setInputValue (v : String)
  | setThinking (b : Bool)
  | schedule (delayMs : Nat) (callback : List ChatEff)
  | netRequest (url : String)

/-- The fixed assistant reply template of the mocked chat logic,
interpolating the submitted text. -/
def sylvieAssistantReply (input : String) : String :=
  "Bonjour ! J\x27ai reçu votre message : \"" ++ input ++
    "\". Je suis Sylvie, votre assistant IA pour Google Workspace. Comment puis-je vous aider aujourd\x27hui ?"

/-- handleSendMessage of SylvieV3Interface: returns early on an input
whose trimmed value is empty; otherwise creates a conversation when
none is active, appends the user message, clears the input, sets the
thinking flag and schedules a 2000 ms timer whose callback appends the
templated assistant message and clears the thinking flag.  No network
effect occurs anywhere in the handler. -/
def handleSendMessage (inputValue : String) (activeConversationId : Option String) :
    List ChatEff :=
  if jsTrim inputValue = "" then []
  else
    (if activeConversationId.isNone then [ChatEff.createConversation] else []) ++
    [ ChatEff.addMessage "user" inputValue
    , ChatEff.setInputValue ""
    , ChatEff.setThinking true
    , ChatEff.schedule 2000
        [ ChatEff.addMessage "assistant" (sylvieAssistantReply inputValue)
        , ChatEff.setThinking false ] ]

/-- Extracts the scheduled timers of an effect list. -/
def schedulesOf (effs : List ChatEff) : List (Nat × List ChatEff) :=
  effs.filterMap (fun e =>
    match e with
    | ChatEff.schedule d cb => some (d, cb)
    | _ => none)

/-- Tests whether an effect is a network request. -/
def isNetRequest : ChatEff → Bool
  | ChatEff.netRequest _ => true
  | _ => false

mutual

/-- Tests whether an effect is, or schedules (transitively), a network
request. -/
def effHasNet : ChatEff → Bool
  | ChatEff.netRequest _ => true
  | ChatEff.schedule _ cb => effsHaveNet cb
  | _ => false

/-- Tests whether any effect of the list is, or schedules
(transitively), a network request. -/
def effsHaveNet : List ChatEff → Bool
  | [] => false
  | e :: es => effHasNet e || effsHaveNet es

end

end SylvieV3Interface

namespace Broker

/-- Modelled from the spec: the error taxonomy of §7.  The broker code
itself is absent from the repository (the design exists only in the
documentation), so the whole Broker namespace is modelled from the
specification text. -/
inductive BrokerError where
  | unknownCapability
  | unknownAccount
  | noLinkedAccount
  | ambiguousAccount
  | insufficientScope
  | refreshDenied
  | authExpired
  | providerTransient
  | providerRejected
deriving DecidableEq, Repr

/-- Modelled from the spec: the Credential record of §3, with scope
URIs as strings and timestamps as naturals. -/
structure Credential where
  accountId : String
  accessToken : String
  refreshToken : String
  expiryTimestamp : Nat
  grantedScopes : Finset String
deriving DecidableEq

/-- Modelled from the spec: a cache entry binds an opaque handle
instance (an identifier drawn from a fresh counter) to the scopes it
was built for and its expiry instant. -/
structure CacheEntry where
  handle : Nat
  boundScopes : Finset String
  expiresAt : Nat
deriving DecidableEq

/-- Modelled from the spec: the Scope Registry of §4.1 as a static
association list from capability names to scope URIs. -/
def resolve (reg : List (String × String)) (c : String) : Option String :=
  (reg.find? (fun p => p.1 = c)).map Prod.snd

/-- Modelled from the spec: resolveAll of §4.1 resolves every requested
capability and deduplicates the underlying scope URIs into a set;
it fails (UnknownCapability) as soon as one capability is
unregistered. -/
def resolveAll (reg : List (String × String)) (cs : List String) : Option (Finset String) :=
  if ∀ c ∈ cs, (resolve reg c).isSome then some (cs.filterMap (resolve reg)).toFinset
  else none

/-- Modelled from the spec: the Token Store persistence map, keyed by
accountId. -/
def lookupToken (tokens : List (String × Credential)) (accountId : String) :
    Option Credential :=
  (tokens.find? (fun p => p.1 = accountId)).map Prod.snd

/-- Modelled from the spec: TokenStore.store of §4.2, an atomic upsert
keyed by the credential accountId. -/
def storeToken (tokens : List (String × Credential)) (cred : Credential) :
    List (String × Credential) :=
  (cred.accountId, cred) :: tokens.filter (fun p => p.1 ≠ cred.accountId)

/-- Modelled from the spec: TokenStore.get of §4.2, failing with
UnknownAccount when the account was never linked. -/
def getToken (tokens : List (String × Credential)) (accountId : String) :
    Except BrokerError Credential :=
  match lookupToken tokens accountId with
  | some cred => .ok cred
  | none => .error .unknownAccount

/-- Modelled from the spec: the shared mutable state of the broker
core — the Token Store map, the Service Cache map, the fresh-handle
counter standing for factory-produced handle instances, and
instrumentation counters for factory invocations, provider
refresh-endpoint calls and wrapped-operation attempts. -/
structure BrokerSt where
  tokens : List (String × Credential)
  cache : List ((String × String) × CacheEntry)
  nextHandle : Nat
  factoryCalls : Nat
  providerCalls : Nat
  opAttempts : Nat

/-- Modelled from the spec: the static collaborators of the broker —
the scope registry, the provider refresh endpoint (none models a
rejected refresh), the freshness safety margin and the cache TTL. -/
structure BrokerCfg where
  reg : List (String × String)
  provider : Credential → Option Credential
  margin : Nat
  ttl : Nat

/-- Modelled from the spec: Service Cache map lookup keyed by
(accountId, serviceType). -/
def cacheLookup (cache : List ((String × String) × CacheEntry)) (k : String × String) :
    Option CacheEntry :=
  (cache.find? (fun e => e.1 = k)).map Prod.snd

/-- Modelled from the spec: replacing (not mutating) the cache entry of
a key. -/
def cacheStore (cache : List ((String × String) × CacheEntry)) (k : String × String)
    (entry : CacheEntry) : List ((String × String) × CacheEntry) :=
  (k, entry) :: cache.filter (fun e => e.1 ≠ k)

/-- Modelled from the spec: explicit invalidation of a cache entry
(§4.4, on AuthExpired). -/
def invalidate (st : BrokerSt) (accountId serviceType : String) : BrokerSt :=
  { st with cache := st.cache.filter (fun e => e.1 ≠ (accountId, serviceType)) }

/-- Modelled from the spec: ensureFresh of §4.2.  The stored grant is
checked against the required scopes before anything else (an
insufficient grant is never silently escalated and causes no provider
call); a credential whose expiry lies more than the safety margin in
the future is returned as is; otherwise one refresh exchange is
performed with the provider endpoint (counted in providerCalls), the
result is stored atomically, and a provider rejection is
RefreshDenied. -/
def ensureFresh (cfg : BrokerCfg) (now : Nat) (st : BrokerSt) (accountId : String)
    (requiredScopes : Finset String) : Except BrokerError Credential × BrokerSt :=
  match lookupToken st.tokens accountId with
  | none => (.error .unknownAccount, st)
  | some cred =>
    if ¬ requiredScopes ⊆ cred.grantedScopes then (.error .insufficientScope, st)
    else if now + cfg.margin < cred.expiryTimestamp then (.ok cred, st)
    else
      let st1 := { st with providerCalls := st.providerCalls + 1 }
      match cfg.provider cred with
      | none => (.error .refreshDenied, st1)
      | some newCred => (.ok newCred, { st1 with tokens := storeToken st1.tokens newCred })

/-- Modelled from the spec: ServiceCache.acquire of §4.3.  Scopes are
resolved through the registry, the credential is freshened, and the
cache is consulted: a present entry is reused when now is strictly
before its expiry (expiry is exclusive of validity) and its bound
scopes cover the required ones; otherwise a new handle instance is
constructed through the factory (counted in factoryCalls, instance
identity given by the fresh counter) and stored with
expiresAt = now + ttl. -/
def acquire (cfg : BrokerCfg) (now : Nat) (st : BrokerSt) (accountId serviceType : String)
    (caps : List String) : Except BrokerError Nat × BrokerSt :=
  match resolveAll cfg.reg caps with
  | none => (.error .unknownCapability, st)
  | some req =>
    match ensureFresh cfg now st accountId req with
    | (.error e, st1) => (.error e, st1)
    | (.ok _, st1) =>
      let build : BrokerSt → Except BrokerError Nat × BrokerSt := fun s =>
        (.ok s.nextHandle,
          { s with
            nextHandle := s.nextHandle + 1
            factoryCalls := s.factoryCalls + 1
            cache := cacheStore s.cache (accountId, serviceType)
              { handle := s.nextHandle, boundScopes := req, expiresAt := now + cfg.ttl } })
      match cacheLookup st1.cache (accountId, serviceType) with
      | some entry =>
          if now < entry.expiresAt ∧ req ⊆ entry.boundScopes then (.ok entry.handle, st1)
          else build st1
      | none => build st1

/-- Modelled from the spec: the classified outcome of one wrapped
operation call. -/
inductive OpResult where
  | success (payload : String)
  | failure (e : BrokerError)
deriving DecidableEq, Repr

/-- Modelled from the spec: CapabilityBroker.invoke of §4.4, with the
account already resolved.  The handle is acquired and the operation run
(counted in opAttempts); on success the payload is returned; on
AuthExpired the cache entry is invalidated, a fresh acquire rebuilds
the handle and the operation is retried exactly once, a second
AuthExpired being returned with no third attempt; any other error
class propagates immediately with neither invalidation nor retry. -/
def invoke (cfg : BrokerCfg) (now : Nat) (st : BrokerSt) (accountId serviceType : String)
    (caps : List String) (op : Nat → OpResult) : Except BrokerError String × BrokerSt :=
  match acquire cfg now st accountId serviceType caps with
  | (.error e, st1) => (.error e, st1)
  | (.ok h, st1) =>
    let st2 := { st1 with opAttempts := st1.opAttempts + 1 }
    match op h with
    | .success payload => (.ok payload, st2)
    | .failure e =>
      if e = .authExpired then
        let st3 := invalidate st2 accountId serviceType
        match acquire cfg now st3 accountId serviceType caps with
        | (.error e2, st4) => (.error e2, st4)
        | (.ok h2, st4) =>
          let st5 := { st4 with opAttempts := st4.opAttempts + 1 }
          match op h2 with
          | .success payload => (.ok payload, st5)
          | .failure e2 => (.error e2, st5)
      else (.error e, st2)

/-- Modelled from the spec: the per-account refresh serialization state
of §4.2 and §5.  A refresh window is either idle or holds the list of
callers collapsed onto the in-flight refresh; providerCalls counts the
refresh requests issued to the provider endpoint and results records
the credential each caller observed. -/
structure RefreshSt where
  inFlight : Option (List Nat)
  providerCalls : Nat
  results : List (Nat × Credential)

/-- Modelled from the spec: a caller entering ensureFresh while a
refresh may be in flight.  With no refresh in flight the caller issues
the single refresh request and opens the window; otherwise the caller
merely joins the waiters of the in-flight refresh, issuing no request
of its own. -/
def arrive (s : RefreshSt) (caller : Nat) : RefreshSt :=
  match s.inFlight with
  | none => { s with inFlight := some [caller], providerCalls := s.providerCalls + 1 }
  | some ws => { s with inFlight := some (caller :: ws) }

/-- Modelled from the spec: completion of the in-flight refresh — every
collapsed caller observes the one resulting credential and the window
closes. -/
def complete (s : RefreshSt) (newCred : Credential) : RefreshSt :=
  match s.inFlight with
  | none => s
  | some ws =>
      { s with inFlight := none, results := ws.map (fun c => (c, newCred)) ++ s.results }

/-- Concrete fixture: the acct1 credential of the spec scenarios,
granted only the gmail.readonly scope. -/
def credA : Credential :=
  { accountId := "acct1", accessToken := "at", refreshToken := "rt",
    expiryTimestamp := 10000, grantedScopes := {"gmail.readonly"} }

/-- Concrete fixture: a broker state with acct1 linked and an empty
service cache. -/
def stA : BrokerSt :=
  { tokens := [("acct1", credA)], cache := [], nextHandle := 0,
    factoryCalls := 0, providerCalls := 0, opAttempts := 0 }

/-- Concrete fixture: a configuration registering the gmail_send and
gmail_read capabilities, with a 60 second safety margin and a 1800
second TTL. -/
def cfgA : BrokerCfg :=
  { reg := [("gmail_send", "gmail.send"), ("gmail_read", "gmail.readonly")],
    provider := fun cred => some cred, margin := 60, ttl := 1800 }

end Broker

/-! Helper lemmas shared by the claim theorems. -/

/-- A mapped list is pointwise related to the original list whenever
the mapping function realizes the relation at every element. -/
theorem forall₂_pointwise_map {α : Type} (l : List α) (f : α → α) (R : α → α → Prop)
    (hf : ∀ a, R a (f a)) : List.Forall₂ R l (l.map f) := by
  induction l with
  | nil => simp
  | cons a t ih => exact List.Forall₂.cons (hf a) ih

/-- Looking a key up after filtering away every entry of that key gives
nothing. -/
theorem cacheLookup_filter_ne (cache : List ((String × String) × Broker.CacheEntry))
    (k : String × String) :
    Broker.cacheLookup (cache.filter (fun e => e.1 ≠ k)) k = none := by
  induction cache with
  | nil => rfl
  | cons e t ih =>
      by_cases h : e.1 = k
      · simp [Broker.cacheLookup, List.filter, h, ih]
      · simp [Broker.cacheLookup, List.filter, h, ih]

/-- Looking a key up right after storing an entry under it returns that
entry. -/
theorem cacheLookup_store_self (cache : List ((String × String) × Broker.CacheEntry))
    (k : String × String) (entry : Broker.CacheEntry) :
    Broker.cacheLookup (Broker.cacheStore cache k entry) k = some entry := by
  simp [Broker.cacheLookup, Broker.cacheStore, List.find?]

/-- Computation of acquire on a cache miss with a registered
capability set, a linked account, a sufficient grant and a fresh
credential: the factory is called once and the new entry is stored. -/
theorem acquire_fresh_miss (cfg : Broker.BrokerCfg) (now : Nat) (st : Broker.BrokerSt)
    (accountId serviceType : String) (caps : List String) (req : Finset String)
    (cred : Broker.Credential)
    (hres : Broker.resolveAll cfg.reg caps = some req)
    (hlook : Broker.lookupToken st.tokens accountId = some cred)
    (hsub : req ⊆ cred.grantedScopes)
    (hfresh : now + cfg.margin < cred.expiryTimestamp)
    (hmiss : Broker.cacheLookup st.cache (accountId, serviceType) = none) :
    Broker.acquire cfg now st accountId serviceType caps =
      (.ok st.nextHandle,
        { st with nextHandle := st.nextHandle + 1
                  factoryCalls := st.factoryCalls + 1
                  cache := Broker.cacheStore st.cache (accountId, serviceType)
                    { handle := st.nextHandle, boundScopes := req,
                      expiresAt := now + cfg.ttl } }) := by
  simp [Broker.acquire, Broker.ensureFresh, hres, hlook, hsub, hfresh, hmiss]

/-- Computation of acquire on a valid cache hit: the cached handle is
returned and the state is untouched. -/
theorem acquire_hit (cfg : Broker.BrokerCfg) (now : Nat) (st : Broker.BrokerSt)
    (accountId serviceType : String) (caps : List String) (req : Finset String)
    (cred : Broker.Credential) (entry : Broker.CacheEntry)
    (hres : Broker.resolveAll cfg.reg caps = some req)
    (hlook : Broker.lookupToken st.tokens accountId = some cred)
    (hsub : req ⊆ cred.grantedScopes)
    (hfresh : now + cfg.margin < cred.expiryTimestamp)
    (hhit : Broker.cacheLookup st.cache (accountId, serviceType) = some entry)
    (hvalid : now < entry.expiresAt)
    (hscopes : req ⊆ entry.boundScopes) :
    Broker.acquire cfg now st accountId serviceType caps = (.ok entry.handle, st) := by
  simp [Broker.acquire, Broker.ensureFresh, hres, hlook, hsub, hfresh, hhit, hvalid, hscopes]

/-- Computation of acquire when the stored grant does not cover the
required scopes: InsufficientScope, state untouched. -/
theorem acquire_insufficient (cfg : Broker.BrokerCfg) (now : Nat) (st : Broker.BrokerSt)
    (accountId serviceType : String) (caps : List String) (req : Finset String)
    (cred : Broker.Credential)
    (hres : Broker.resolveAll cfg.reg caps = some req)
    (hlook : Broker.lookupToken st.tokens accountId = some cred)
    (hnsub : ¬ req ⊆ cred.grantedScopes) :
    Broker.acquire cfg now st accountId serviceType caps =
      (.error .insufficientScope, st) := by
  simp [Broker.acquire, Broker.ensureFresh, hres, hlook, hnsub]

/-! Claim theorems. -/

/-- Claim C6: TokenStore.store followed by TokenStore.get on the same
account id returns a credential equal to the one stored. -/
theorem tokenStore_store_get_roundtrip (tokens : List (String × Broker.Credential))
    (cred : Broker.Credential) :
    Broker.getToken (Broker.storeToken tokens cred) cred.accountId = .ok cred := by
  simp [Broker.getToken, Broker.lookupToken, Broker.storeToken, List.find?]

/-- Claim C7: resolution through the Scope Registry is a function
(hence deterministic), and resolveAll on two capabilities that map to
the same scope URI returns the singleton scope set, of size one. -/
theorem resolveAll_dedup_shared_scope (reg : List (String × String)) (c1 c2 s : String)
    (h1 : Broker.resolve reg c1 = some s) (h2 : Broker.resolve reg c2 = some s) :
    Broker.resolveAll reg [c1, c2] = some {s} ∧ ({s} : Finset String).card = 1 := by
  constructor
  · unfold Broker.resolveAll
    rw [if_pos]
    · simp [List.filterMap, h1, h2]
    · intro c hc
      simp only [List.mem_cons, List.not_mem_nil, or_false] at hc
      rcases hc with rfl | rfl
      · simp [h1]
      · simp [h2]
  · exact Finset.card_singleton s

/-- Witness for claim C7 at a concrete registry in which two
capabilities share one scope URI. -/
theorem resolveAll_dedup_shared_scope_witness :
    Broker.resolve [("gmail_read", "gmail.readonly"), ("gmail_meta", "gmail.readonly")]
        "gmail_read" = some "gmail.readonly" ∧
    Broker.resolveAll [("gmail_read", "gmail.readonly"), ("gmail_meta", "gmail.readonly")]
        ["gmail_read", "gmail_meta"] = some {"gmail.readonly"} :=
  ⟨by decide,
   (resolveAll_dedup_shared_scope
      [("gmail_read", "gmail.readonly"), ("gmail_meta", "gmail.readonly")]
      "gmail_read" "gmail_meta" "gmail.readonly" (by decide) (by decide)).1⟩

/-- Claim C8: setUser establishes isAuthenticated = (user is present),
logout clears user, isAuthenticated, conversations,
activeConversationId and messages, and no other store action changes
the user or isAuthenticated fields. -/
theorem store_auth_invariant :
    (∀ (st : SylvieStore.State) (u : Option String),
       (SylvieStore.applyAction (.setUser u) st).user = u ∧
       (SylvieStore.applyAction (.setUser u) st).isAuthenticated =
         (SylvieStore.applyAction (.setUser u) st).user.isSome) ∧
    (∀ st : SylvieStore.State,
       (SylvieStore.applyAction .logout st).user = none ∧
       (SylvieStore.applyAction .logout st).isAuthenticated = false ∧
       (SylvieStore.applyAction .logout st).conversations = [] ∧
       (SylvieStore.applyAction .logout st).activeConversationId = none ∧
       (SylvieStore.applyAction .logout st).messages = []) ∧
    (∀ (st : SylvieStore.State) (a : SylvieStore.Action),
       SylvieStore.touchesAuth a = false →
       (SylvieStore.applyAction a st).user = st.user ∧
       (SylvieStore.applyAction a st).isAuthenticated = st.isAuthenticated) := by
  refine ⟨fun st u => ⟨rfl, rfl⟩, fun st => ⟨rfl, rfl, rfl, rfl, rfl⟩, ?_⟩
  intro st a ha
  cases a
  case setUser u => simp [SylvieStore.touchesAuth] at ha
  case logout => simp [SylvieStore.touchesAuth] at ha
  case setActiveConversation cid =>
    rcases hfind : st.conversations.find? (fun c => c.id = cid) with _ | conversation <;>
      simp [SylvieStore.applyAction, SylvieStore.setActiveConversation, hfind]
  case createBranch messageId newMessage branchId msgId now title =>
    rcases hfind : st.messages.findIdx? (fun m => m.id = messageId) with _ | idx <;>
      simp [SylvieStore.applyAction, SylvieStore.createBranch, hfind]
  all_goals exact ⟨rfl, rfl⟩

/-- Witness for claim C8: the frame part applied to the toggleSidebar
action at the initial state. -/
theorem store_auth_invariant_witness :
    (SylvieStore.applyAction SylvieStore.Action.toggleSidebar SylvieStore.initialState).user
      = SylvieStore.initialState.user ∧
    (SylvieStore.applyAction SylvieStore.Action.toggleSidebar
        SylvieStore.initialState).isAuthenticated
      = SylvieStore.initialState.isAuthenticated :=
  store_auth_invariant.2.2 SylvieStore.initialState SylvieStore.Action.toggleSidebar rfl

/-- Claim C9: both addMessage variants touch only the active (current)
conversation — the conversation count is preserved and every
conversation whose id differs from the active one is unchanged as a
whole record (its message list and, in the store variant, its
updatedAt included). -/
theorem addMessage_active_conversation_frame :
    (∀ (st : SylvieStore.State) (mtype mcontent newId : String) (now : Nat),
       ((SylvieStore.addMessage mtype mcontent newId now st).conversations.length
          = st.conversations.length) ∧
       List.Forall₂ (fun c c' => st.activeConversationId ≠ some c.id → c' = c)
         st.conversations (SylvieStore.addMessage mtype mcontent newId now st).conversations) ∧
    (∀ (convs : List UseConversations.Conversation) (cid : Nat)
       (msg : UseConversations.Message),
       ((UseConversations.addMessage convs cid msg).length = convs.length) ∧
       List.Forall₂ (fun c c' => c.id ≠ cid → c' = c)
         convs (UseConversations.addMessage convs cid msg)) := by
  constructor
  · intro st mtype mcontent newId now
    constructor
    · simp [SylvieStore.addMessage]
    · simp only [SylvieStore.addMessage]
      exact forall₂_pointwise_map st.conversations _ _ (fun a h => if_neg h)
  · intro convs cid msg
    constructor
    · simp [UseConversations.addMessage]
    · simp only [UseConversations.addMessage]
      exact forall₂_pointwise_map convs _ _ (fun a h => if_neg h)

/-- Witness for claim C9: the hook variant applied to the initial
conversation list and a current conversation id matching none of
them. -/
theorem addMessage_active_conversation_frame_witness :
    List.Forall₂ (fun c c' => c.id ≠ 2 → c' = c) UseConversations.initialConversations
      (UseConversations.addMessage UseConversations.initialConversations 2
        { id := 3, sender := "Utilisateur", content := "Salut", timestamp := "10:02" }) :=
  (addMessage_active_conversation_frame.2 UseConversations.initialConversations 2
    { id := 3, sender := "Utilisateur", content := "Salut", timestamp := "10:02" }).2

/-- Claim C10: handleSend rejects a message whose trimmed length is
below the minimum or whose raw length exceeds the maximum — it shows
the error toast and leaves the conversations and the input field
untouched; a message within the bounds is appended as a user message
to the current conversation, every other conversation being
unchanged. -/
theorem handleSend_length_bounds :
    ∀ (message : String) (convs : List UseConversations.Conversation) (cid nowId : Nat)
      (ts : String),
    (((jsTrim message).length < ChatInterface.MESSAGE_MIN_LENGTH ∨
        ChatInterface.MESSAGE_MAX_LENGTH < message.length) →
       ChatInterface.handleSend message convs cid nowId ts =
         { conversations := convs
           toast := some { message := "Message invalide", ttype := "error" }
           inputField := message }) ∧
    ((ChatInterface.MESSAGE_MIN_LENGTH ≤ (jsTrim message).length ∧
        message.length ≤ ChatInterface.MESSAGE_MAX_LENGTH) →
       (ChatInterface.handleSend message convs cid nowId ts).toast = none ∧
       (ChatInterface.handleSend message convs cid nowId ts).conversations.length
         = convs.length ∧
       List.Forall₂ (fun c c' =>
           (c.id = cid → c'.messages = c.messages ++
              [{ id := nowId, sender := "Utilisateur", content := message,
                 timestamp := ts }]) ∧
           (c.id ≠ cid → c' = c))
         convs (ChatInterface.handleSend message convs cid nowId ts).conversations) := by
  intro message convs cid nowId ts
  constructor
  · intro h
    have hv : ChatInterface.validateMessage message = false := by
      simp only [ChatInterface.validateMessage, ChatInterface.MESSAGE_MIN_LENGTH,
        ChatInterface.MESSAGE_MAX_LENGTH, Bool.and_eq_false_iff,
        decide_eq_false_iff_not, not_le] at *
      omega
    simp [ChatInterface.handleSend, hv]
  · intro h
    have hv : ChatInterface.validateMessage message = true := by
      simp only [ChatInterface.validateMessage, ChatInterface.MESSAGE_MIN_LENGTH,
        ChatInterface.MESSAGE_MAX_LENGTH, Bool.and_eq_true, decide_eq_true_eq]
      exact h
    refine ⟨by simp [ChatInterface.handleSend, hv], ?_, ?_⟩
    · simp [ChatInterface.handleSend, hv, UseConversations.addMessage]
    · simp only [ChatInterface.handleSend, hv, Bool.not_true, Bool.false_eq_true,
        if_false, UseConversations.addMessage]
      exact forall₂_pointwise_map convs _ _
        (fun a => ⟨fun hh => by simp [hh], fun hh => if_neg hh⟩)

/-- Witness for claim C10: the empty message is rejected with the
error toast, and a short greeting is accepted. -/
theorem handleSend_length_bounds_witness :
    ChatInterface.handleSend "" UseConversations.initialConversations 1 3 "10:02" =
      { conversations := UseConversations.initialConversations
        toast := some { message := "Message invalide", ttype := "error" }
        inputField := "" } ∧
    (ChatInterface.handleSend "Bonjour" UseConversations.initialConversations 1 3
        "10:02").toast = none :=
  ⟨(handleSend_length_bounds "" UseConversations.initialConversations 1 3 "10:02").1
      (by decide),
   ((handleSend_length_bounds "Bonjour" UseConversations.initialConversations 1 3
        "10:02").2 (by decide)).1⟩

/-- Claim C1 (amended): for every input whose trimmed content is
non-empty, the send handler performs no network effect anywhere
(scheduled callbacks included), schedules exactly one timer, whose
callback appends an assistant message whose content is the fixed
template interpolating the submitted text, and appends no assistant
message outside that timer callback. -/
theorem chat_reply_local_and_templated :
    ∀ (input : String) (aid : Option String), jsTrim input ≠ "" →
    SylvieV3Interface.effsHaveNet (SylvieV3Interface.handleSendMessage input aid) = false ∧
    SylvieV3Interface.schedulesOf (SylvieV3Interface.handleSendMessage input aid) =
      [(2000,
        [ SylvieV3Interface.ChatEff.addMessage "assistant"
            (SylvieV3Interface.sylvieAssistantReply input)
        , SylvieV3Interface.ChatEff.setThinking false ])] ∧
    SylvieV3Interface.sylvieAssistantReply input =
      "Bonjour ! J\x27ai reçu votre message : \"" ++ input ++
        "\". Je suis Sylvie, votre assistant IA pour Google Workspace. Comment puis-je vous aider aujourd\x27hui ?" ∧
    (∀ c, SylvieV3Interface.ChatEff.addMessage "assistant" c ∉
        SylvieV3Interface.handleSendMessage input aid) := by
  intro input aid h
  unfold SylvieV3Interface.handleSendMessage
  rw [if_neg h]
  cases aid <;>
    simp [SylvieV3Interface.effsHaveNet, SylvieV3Interface.effHasNet,
      SylvieV3Interface.schedulesOf, SylvieV3Interface.sylvieAssistantReply]

/-- Witness for claim C1 at the concrete input Bonjour with no active
conversation. -/
theorem chat_reply_local_and_templated_witness :
    jsTrim "Bonjour" ≠ "" ∧
    SylvieV3Interface.effsHaveNet (SylvieV3Interface.handleSendMessage "Bonjour" none)
      = false :=
  ⟨by decide, (chat_reply_local_and_templated "Bonjour" none (by decide)).1⟩

/-- Counterexample to claim C1 as stated: the one-space input is a
non-empty string, yet the handler returns before scheduling anything —
no assistant reply is produced at all, by a timer or otherwise. -/
theorem chat_whitespace_input_no_reply :
    (" " : String) ≠ "" ∧ SylvieV3Interface.handleSendMessage " " none = [] := by
  constructor
  · decide
  · unfold SylvieV3Interface.handleSendMessage
    rw [if_pos (by decide)]

/-- Claim C2: within one refresh window of an account — any number of
ensureFresh callers arriving while the refresh begun by the first of
them is in flight, followed by the completion of that refresh — exactly one
refresh request is issued to the provider endpoint and every caller of
the window observes the same resulting credential. -/
theorem ensureFresh_refresh_collapsing :
    ∀ (s : Broker.RefreshSt) (c0 : Nat) (cs : List Nat) (newCred : Broker.Credential),
    s.inFlight = none →
    (Broker.complete ((c0 :: cs).foldl Broker.arrive s) newCred).providerCalls
        = s.providerCalls + 1 ∧
    (∀ c ∈ c0 :: cs,
      (c, newCred) ∈ (Broker.complete ((c0 :: cs).foldl Broker.arrive s) newCred).results) := by
  intro s c0 cs newCred hno
  have key : ∀ (l : List Nat) (t : Broker.RefreshSt) (ws : List Nat),
      t.inFlight = some ws →
      ∃ ws', (l.foldl Broker.arrive t).inFlight = some ws' ∧
        (∀ c, c ∈ l ∨ c ∈ ws → c ∈ ws') ∧
        (l.foldl Broker.arrive t).providerCalls = t.providerCalls ∧
        (l.foldl Broker.arrive t).results = t.results := by
    intro l
    induction l with
    | nil =>
        intro t ws hws
        exact ⟨ws, hws, fun c hc => hc.resolve_left (fun hc => absurd hc (List.not_mem_nil c)),
          rfl, rfl⟩
    | cons c l ih =>
        intro t ws hws
        have harr : Broker.arrive t c =
            { t with inFlight := some (c :: ws) } := by
          simp [Broker.arrive, hws]
        rw [List.foldl_cons, harr]
        obtain ⟨ws', h1, h2, h3, h4⟩ := ih { t with inFlight := some (c :: ws) } (c :: ws) rfl
        refine ⟨ws', h1, ?_, h3, h4⟩
        intro d hd
        rcases hd with hd | hd
        · rcases List.mem_cons.mp hd with rfl | hd
          · exact h2 d (Or.inr (List.mem_cons_self d ws))
          · exact h2 d (Or.inl hd)
        · exact h2 d (Or.inr (List.mem_cons_of_mem c hd))
  have harr0 : Broker.arrive s c0 =
      { s with inFlight := some [c0], providerCalls := s.providerCalls + 1 } := by
    simp [Broker.arrive, hno]
  rw [List.foldl_cons, harr0]
  obtain ⟨ws', h1, h2, h3, h4⟩ := key cs
    { s with inFlight := some [c0], providerCalls := s.providerCalls + 1 } [c0] rfl
  have hcomp : Broker.complete (cs.foldl Broker.arrive
      { s with inFlight := some [c0], providerCalls := s.providerCalls + 1 }) newCred =
      { cs.foldl Broker.arrive
          { s with inFlight := some [c0], providerCalls := s.providerCalls + 1 } with
        inFlight := none,
        results := ws'.map (fun c => (c, newCred)) ++
          (cs.foldl Broker.arrive
            { s with inFlight := some [c0], providerCalls := s.providerCalls + 1 }).results } := by
    simp [Broker.complete, h1]
  rw [hcomp]
  constructor
  · simpa using h3
  · intro c hc
    have hmem : c ∈ ws' := by
      rcases List.mem_cons.mp hc with rfl | hc
      · exact h2 c (Or.inr (List.mem_singleton.mpr rfl))
      · exact h2 c (Or.inl hc)
    exact List.mem_append_left _ (List.mem_map_of_mem _ hmem)

/-- Witness for claim C2: three callers collapsing onto one refresh
from the idle state. -/
theorem ensureFresh_refresh_collapsing_witness :
    (Broker.complete (([1, 2, 3] : List Nat).foldl Broker.arrive
        { inFlight := none, providerCalls := 0, results := [] })
        { accountId := "acct1", accessToken := "at", refreshToken := "rt",
          expiryTimestamp := 3600, grantedScopes := {"gmail.readonly"} }).providerCalls
      = 1 :=
  (ensureFresh_refresh_collapsing
    { inFlight := none, providerCalls := 0, results := [] } 1 [2, 3]
    { accountId := "acct1", accessToken := "at", refreshToken := "rt",
      expiryTimestamp := 3600, grantedScopes := {"gmail.readonly"} } rfl).1

/-- Claim C3: when the stored grant does not cover the required scopes,
ensureFresh fails with InsufficientScope and returns the state
untouched (so no call reaches the provider endpoint and no missing
scope is silently requested), and a broker invoke requiring such a
capability fails the same way, again with the state untouched. -/
theorem insufficientScope_no_provider_call :
    ∀ (cfg : Broker.BrokerCfg) (now : Nat) (st : Broker.BrokerSt)
      (accountId serviceType : String) (caps : List String) (req : Finset String)
      (cred : Broker.Credential),
    Broker.resolveAll cfg.reg caps = some req →
    Broker.lookupToken st.tokens accountId = some cred →
    ¬ req ⊆ cred.grantedScopes →
    Broker.ensureFresh cfg now st accountId req = (.error .insufficientScope, st) ∧
    (∀ op, Broker.invoke cfg now st accountId serviceType caps op =
        (.error .insufficientScope, st)) := by
  intro cfg now st accountId serviceType caps req cred hres hlook hnsub
  constructor
  · simp [Broker.ensureFresh, hlook, hnsub]
  · intro op
    have ha := acquire_insufficient cfg now st accountId serviceType caps req cred
      hres hlook hnsub
    simp [Broker.invoke, ha]

/-- Witness for claim C3 at Scenario A: acct1 is granted only
gmail.readonly and invoke requires gmail_send (mapped to gmail.send);
the result is InsufficientScope with the broker state unchanged. -/
theorem insufficientScope_no_provider_call_witness :
    Broker.invoke Broker.cfgA 0 Broker.stA "acct1" "gmail" ["gmail_send"]
        (fun _ => .success "sent")
      = (.error .insufficientScope, Broker.stA) :=
  (insufficientScope_no_provider_call Broker.cfgA 0 Broker.stA "acct1" "gmail"
      ["gmail_send"] {"gmail.send"} Broker.credA (by decide) (by decide) (by decide)).2
    (fun _ => .success "sent")

/-- Claim C4: from a state with no cache entry for the pair, two
successive acquires of the same (account, serviceType, capabilities)
triple before the entry TTL expires both return the identical handle
instance and invoke the handle factory exactly once; the provider
refresh endpoint is never called. -/
theorem acquire_twice_single_factory_call :
    ∀ (cfg : Broker.BrokerCfg) (st : Broker.BrokerSt) (now now2 : Nat)
      (accountId serviceType : String) (caps : List String) (req : Finset String)
      (cred : Broker.Credential),
    Broker.resolveAll cfg.reg caps = some req →
    Broker.lookupToken st.tokens accountId = some cred →
    req ⊆ cred.grantedScopes →
    now + cfg.margin < cred.expiryTimestamp →
    now2 + cfg.margin < cred.expiryTimestamp →
    now2 < now + cfg.ttl →
    Broker.cacheLookup st.cache (accountId, serviceType) = none →
    (Broker.acquire cfg now st accountId serviceType caps).1 = .ok st.nextHandle ∧
    (Broker.acquire cfg now2 (Broker.acquire cfg now st accountId serviceType caps).2
        accountId serviceType caps).1 = .ok st.nextHandle ∧
    (Broker.acquire cfg now2 (Broker.acquire cfg now st accountId serviceType caps).2
        accountId serviceType caps).2.factoryCalls = st.factoryCalls + 1 ∧
    (Broker.acquire cfg now2 (Broker.acquire cfg now st accountId serviceType caps).2
        accountId serviceType caps).2.providerCalls = st.providerCalls := by
  intro cfg st now now2 accountId serviceType caps req cred hres hlook hsub hf1 hf2 httl hmiss
  have h1 := acquire_fresh_miss cfg now st accountId serviceType caps req cred
    hres hlook hsub hf1 hmiss
  have h2 := acquire_hit cfg now2
    { st with nextHandle := st.nextHandle + 1
              factoryCalls := st.factoryCalls + 1
              cache := Broker.cacheStore st.cache (accountId, serviceType)
                { handle := st.nextHandle, boundScopes := req, expiresAt := now + cfg.ttl } }
    accountId serviceType caps req cred
    { handle := st.nextHandle, boundScopes := req, expiresAt := now + cfg.ttl }
    hres hlook hsub hf2 (cacheLookup_store_self _ _ _) httl (Finset.Subset.refl req)
  rw [h1, h2]
  exact ⟨rfl, rfl, rfl, rfl⟩

/-- Witness for claim C4 at the concrete fixture: first acquire at time
0, second at time 1, same handle 0, one factory call, no provider
call. -/
theorem acquire_twice_single_factory_call_witness :
    (Broker.acquire Broker.cfgA 0 Broker.stA "acct1" "gmail" ["gmail_read"]).1
      = .ok 0 ∧
    (Broker.acquire Broker.cfgA 1
        (Broker.acquire Broker.cfgA 0 Broker.stA "acct1" "gmail" ["gmail_read"]).2
        "acct1" "gmail" ["gmail_read"]).2.factoryCalls = 1 :=
  ⟨(acquire_twice_single_factory_call Broker.cfgA Broker.stA 0 1 "acct1" "gmail"
      ["gmail_read"] {"gmail.readonly"} Broker.credA (by decide) (by decide) (by decide)
      (by decide) (by decide) (by decide) (by decide)).1,
   (acquire_twice_single_factory_call Broker.cfgA Broker.stA 0 1 "acct1" "gmail"
      ["gmail_read"] {"gmail.readonly"} Broker.credA (by decide) (by decide) (by decide)
      (by decide) (by decide) (by decide) (by decide)).2.2.1⟩

/-- Claim C5: starting from a state with no cache entry for the pair,
an operation that keeps raising AuthExpired makes invoke invalidate
the entry, rebuild the handle and retry exactly once — two operation
attempts and two factory calls in total, AuthExpired returned to the
caller with no third attempt; whereas an operation raising any other
error class makes invoke return that error after a single attempt,
with no retry and the cache entry left in place. -/
theorem invoke_authExpired_single_retry :
    ∀ (cfg : Broker.BrokerCfg) (st : Broker.BrokerSt) (now : Nat)
      (accountId serviceType : String) (caps : List String) (req : Finset String)
      (cred : Broker.Credential),
    Broker.resolveAll cfg.reg caps = some req →
    Broker.lookupToken st.tokens accountId = some cred →
    req ⊆ cred.grantedScopes →
    now + cfg.margin < cred.expiryTimestamp →
    Broker.cacheLookup st.cache (accountId, serviceType) = none →
    (∀ op : Nat → Broker.OpResult, (∀ h, op h = .failure .authExpired) →
       (Broker.invoke cfg now st accountId serviceType caps op).1
           = .error .authExpired ∧
       (Broker.invoke cfg now st accountId serviceType caps op).2.opAttempts
           = st.opAttempts + 2 ∧
       (Broker.invoke cfg now st accountId serviceType caps op).2.factoryCalls
           = st.factoryCalls + 2) ∧
    (∀ (op : Nat → Broker.OpResult) (e : Broker.BrokerError), e ≠ .authExpired →
       (∀ h, op h = .failure e) →
       (Broker.invoke cfg now st accountId serviceType caps op).1 = .error e ∧
       (Broker.invoke cfg now st accountId serviceType caps op).2.opAttempts
           = st.opAttempts + 1 ∧
       (Broker.invoke cfg now st accountId serviceType caps op).2.factoryCalls
           = st.factoryCalls + 1 ∧
       Broker.cacheLookup
           (Broker.invoke cfg now st accountId serviceType caps op).2.cache
           (accountId, serviceType)
         = some { handle := st.nextHandle, boundScopes := req,
                  expiresAt := now + cfg.ttl }) := by
  intro cfg st now accountId serviceType caps req cred hres hlook hsub hfresh hmiss
  have h1 := acquire_fresh_miss cfg now st accountId serviceType caps req cred
    hres hlook hsub hfresh hmiss
  constructor
  · intro op hop
    have hmiss3 : Broker.cacheLookup
        (Broker.invalidate
          { st with nextHandle := st.nextHandle + 1
                    factoryCalls := st.factoryCalls + 1
                    cache := Broker.cacheStore st.cache (accountId, serviceType)
                      { handle := st.nextHandle, boundScopes := req,
                        expiresAt := now + cfg.ttl }
                    opAttempts := st.opAttempts + 1 }
          accountId serviceType).cache (accountId, serviceType) = none := by
      simp only [Broker.invalidate]
      exact cacheLookup_filter_ne _ _
    have h2 := acquire_fresh_miss cfg now
      (Broker.invalidate
        { st with nextHandle := st.nextHandle + 1
                  factoryCalls := st.factoryCalls + 1
                  cache := Broker.cacheStore st.cache (accountId, serviceType)
                    { handle := st.nextHandle, boundScopes := req,
                      expiresAt := now + cfg.ttl }
                  opAttempts := st.opAttempts + 1 }
        accountId serviceType)
      accountId serviceType caps req cred hres hlook hsub hfresh hmiss3
    refine ⟨?_, ?_, ?_⟩ <;> simp [Broker.invoke, h1, h2, hop] <;>
      simp [Broker.invalidate]
  · intro op e hne hop
    refine ⟨?_, ?_, ?_, ?_⟩ <;>
      simp [Broker.invoke, h1, hop, hne, cacheLookup_store_self]

/-- Witness for claim C5 at the concrete fixture: an operation that
always raises AuthExpired makes invoke return AuthExpired after
exactly two attempts. -/
theorem invoke_authExpired_single_retry_witness :
    (Broker.invoke Broker.cfgA 0 Broker.stA "acct1" "gmail" ["gmail_read"]
        (fun _ => .failure .authExpired)).1 = .error .authExpired ∧
    (Broker.invoke Broker.cfgA 0 Broker.stA "acct1" "gmail" ["gmail_read"]
        (fun _ => .failure .authExpired)).2.opAttempts = 2 :=
  ⟨((invoke_authExpired_single_retry Broker.cfgA Broker.stA 0 "acct1" "gmail"
      ["gmail_read"] {"gmail.readonly"} Broker.credA (by decide) (by decide) (by decide)
      (by decide) (by decide)).1 (fun _ => .failure .authExpired) (fun _ => rfl)).1,
   ((invoke_authExpired_single_retry Broker.cfgA Broker.stA 0 "acct1" "gmail"
      ["gmail_read"] {"gmail.readonly"} Broker.credA (by decide) (by decide) (by decide)
      (by decide) (by decide)).1 (fun _ => .failure .authExpired) (fun _ => rfl)).2.1⟩
